import Mathlib

/-!
Verification of the video ingest and dispatch core of scrcpy, as found in
src/app/src: stream.c (stream engine), recorder.c (recorder sink),
video_buffer.c (triple-buffered frame handoff), decoder.c (decoder sink).

Shallow embedding conventions:
- C machine integers are modelled as Nat / Int; the one place where an
  unsigned-to-signed reinterpretation matters (uint64_t pts stored into the
  int64_t fields of an AVPacket) is made explicit by int64OfUInt64.
- External libav calls that write to the output container (header, frame,
  trailer) are modelled by a MuxCtx that logs each successful write and draws
  the success of each write call from an explicit outcome oracle list
  (empty list means every call succeeds).  Allocation failures inside
  recorder_write_header are subsumed by the same oracle.
- Stateful C code becomes explicit state passing; the recorder thread is
  modelled by the sequence of packets it dequeues, in FIFO order, followed by
  the stopped-and-empty exit path, exactly mirroring the loop of run_recorder.
- Ghost fields (delivered, signals, events, unreffed) record externally
  observable actions (calls into the write policy, condition-variable
  signals, consumer callbacks, frame releases); no source logic reads them.
-/

namespace Scrcpy

/-- Value 2^64, the modulus of the C type uint64_t. -/
def UINT64_MOD : Nat := 18446744073709551616

/-- Value 2^63, the first value out of range of the C type int64_t. -/
def INT64_HALF : Nat := 9223372036854775808

/-- FFmpeg sentinel for an absent timestamp, from libavutil/avutil.h:
AV_NOPTS_VALUE = (int64_t)UINT64_C(0x8000000000000000), that is INT64_MIN. -/
def AV_NOPTS_VALUE : Int := -9223372036854775808

/-- Wire sentinel from stream.c line 23: NO_PTS = UINT64_C(-1), a uint64_t,
hence 2^64 - 1. -/
def NO_PTS : Nat := 18446744073709551615

/-- C conversion of a uint64_t value to int64_t (reduction mod 2^64, as
performed by gcc and clang), as in the assignments packet->pts = pts and
packet->dts = pts of process_packet in stream.c. -/
def int64OfUInt64 (u : Nat) : Int :=
  if u % UINT64_MOD < INT64_HALF then ((u % UINT64_MOD : Nat) : Int)
  else ((u % UINT64_MOD : Nat) : Int) - (UINT64_MOD : Nat)

/-- An FFmpeg AVPacket, restricted to the fields the core reads or writes.
The defaults are those established by av_init_packet: pts and dts at
AV_NOPTS_VALUE, duration 0, no flags. -/
structure AVPacket where
  data : List Nat := []
  pts : Int := AV_NOPTS_VALUE
  dts : Int := AV_NOPTS_VALUE
  duration : Int := 0
  keyframe : Bool := false
deriving Repr, DecidableEq

/-- One successful write into the output container. -/
inductive MuxOp where
  | header (extradata : List Nat)
  | frame (p : AVPacket)
  | trailer
deriving Repr, DecidableEq

/-- The libavformat output context bound to the output file.  ops logs the
successful writes in order; outcomes is the oracle deciding the success of
each subsequent write call (head consumed per call, empty means success);
tb_num / tb_den is the time base the muxer chose for stream 0. -/
structure MuxCtx where
  extradata : Option (List Nat) := none
  ops : List MuxOp := []
  outcomes : List Bool := []
  tb_num : Nat := 1
  tb_den : Nat := 1000000
deriving Repr, DecidableEq

/-- Model of avformat_write_header: on success, append a header write
carrying the extradata currently installed on stream 0. -/
def avformat_write_header (m : MuxCtx) : Bool × MuxCtx :=
  match m.outcomes with
  | false :: rest => (false, { m with outcomes := rest })
  | true :: rest =>
      (true, { m with outcomes := rest,
                      ops := m.ops ++ [MuxOp.header (m.extradata.getD [])] })
  | [] => (true, { m with ops := m.ops ++ [MuxOp.header (m.extradata.getD [])] })

/-- Model of av_write_frame: on success, append the packet as one frame. -/
def av_write_frame (m : MuxCtx) (p : AVPacket) : Bool × MuxCtx :=
  match m.outcomes with
  | false :: rest => (false, { m with outcomes := rest })
  | true :: rest => (true, { m with outcomes := rest, ops := m.ops ++ [MuxOp.frame p] })
  | [] => (true, { m with ops := m.ops ++ [MuxOp.frame p] })

/-- Model of av_write_trailer. -/
def av_write_trailer (m : MuxCtx) : Bool × MuxCtx :=
  match m.outcomes with
  | false :: rest => (false, { m with outcomes := rest })
  | true :: rest => (true, { m with outcomes := rest, ops := m.ops ++ [MuxOp.trailer] })
  | [] => (true, { m with ops := m.ops ++ [MuxOp.trailer] })

/-- FFmpeg av_rescale_rnd with rounding AV_ROUND_NEAR_INF (round to nearest,
halfway away from zero), for positive b and c, as used by av_rescale_q. -/
def av_rescale_near (a : Int) (b c : Nat) : Int :=
  if 0 ≤ a then ((a.toNat * b + c / 2) / c : Nat)
  else -(((((-a).toNat) * b + c / 2) / c : Nat))

/-- FFmpeg av_rescale_q from time base bnum/bden to cnum/cden. -/
def av_rescale_q (a : Int) (bnum bden cnum cden : Nat) : Int :=
  av_rescale_near a (bnum * cden) (cnum * bden)

/-- FFmpeg av_packet_rescale_ts: rescale pts and dts unless absent, and the
duration when positive. -/
def av_packet_rescale_ts (p : AVPacket) (bnum bden cnum cden : Nat) : AVPacket :=
  let p1 := if p.pts ≠ AV_NOPTS_VALUE
            then { p with pts := av_rescale_q p.pts bnum bden cnum cden } else p
  let p2 := if p1.dts ≠ AV_NOPTS_VALUE
            then { p1 with dts := av_rescale_q p1.dts bnum bden cnum cden } else p1
  if 0 < p2.duration
  then { p2 with duration := av_rescale_q p2.duration bnum bden cnum cden } else p2

/-- A record of the recorder queue (record_packet in recorder.c): a full
duplicate of the pushed packet, bytes included (av_packet_ref). -/
structure RecordPacket where
  packet : AVPacket
deriving Repr, DecidableEq

/-- Recorder state (struct recorder), with the fields recorder_init sets as
defaults.  queue is the FIFO of records; previous is the carry slot; signals
and delivered are ghost logs (condition-variable signals sent by
recorder_push, and packets handed to the write policy recorder_write). -/
structure Recorder where
  mux : MuxCtx := {}
  header_written : Bool := false
  failed : Bool := false
  stopped : Bool := false
  queue : List RecordPacket := []
  previous : Option RecordPacket := none
  signals : Nat := 0
  delivered : List AVPacket := []
deriving Repr, DecidableEq

/-- record_packet_new of recorder.c: duplicate the packet; allocOk models
the success of the malloc and av_packet_ref calls. -/
def record_packet_new (allocOk : Bool) (p : AVPacket) : Option RecordPacket :=
  if allocOk then some ⟨p⟩ else none

/-- recorder_push of recorder.c lines 289-312: under the mutex (collapsed
here since the state is explicit), reject when failed, otherwise duplicate
the packet, enqueue it and signal the condition variable.  The source also
asserts that stopped is not yet set at every call. -/
def recorder_push (r : Recorder) (allocOk : Bool) (p : AVPacket) : Bool × Recorder :=
  if r.failed then (false, r)
  else
    match record_packet_new allocOk p with
    | none => (false, r)
    | some rec =>
        (true, { r with queue := r.queue ++ [rec], signals := r.signals + 1 })

/-- recorder_write_header of recorder.c lines 69-92: install a copy of the
packet bytes (exact size) as the extradata of stream 0, then write the
container header. -/
def recorder_write_header (r : Recorder) (p : AVPacket) : Bool × Recorder :=
  let m1 := { r.mux with extradata := some p.data }
  let wh := avformat_write_header m1
  (wh.fst, { r with mux := wh.snd })

/-- recorder_rescale_packet of recorder.c lines 94-98: rescale from the
pipeline time base 1/1000000 into the time base of stream 0. -/
def recorder_rescale_packet (r : Recorder) (p : AVPacket) : AVPacket :=
  av_packet_rescale_ts p 1 1000000 r.mux.tb_num r.mux.tb_den

/-- recorder_write of recorder.c lines 100-122: the write policy.  Before the
header: a packet with a present pts is an error; otherwise its bytes become
the extradata, the header is written and the packet is consumed.  After the
header: a packet without pts is silently dropped; otherwise it is rescaled
and written as one frame.  The ghost field delivered logs every packet
handed to this policy. -/
def recorder_write (r : Recorder) (p : AVPacket) : Bool × Recorder :=
  let r1 := { r with delivered := r.delivered ++ [p] }
  if r1.header_written = false then
    if p.pts ≠ AV_NOPTS_VALUE then
      (false, r1)
    else
      let hw := recorder_write_header r1 p
      if hw.fst = false then (false, hw.snd)
      else (true, { hw.snd with header_written := true })
  else if p.pts = AV_NOPTS_VALUE then
    (true, r1)
  else
    let p2 := recorder_rescale_packet r1 p
    let wf := av_write_frame r1.mux p2
    (wf.fst, { r1 with mux := wf.snd })

/-- One iteration of the loop of run_recorder (recorder.c lines 156-188)
once a packet rec has been dequeued: rotate the carry slot, infer the
duration of the previous packet when both timestamps are present, write the
previous packet; on write failure set failed, discard the queued packets and
stop (Bool result false means the loop breaks). -/
def recorder_step (r : Recorder) (rec : RecordPacket) : Bool × Recorder :=
  let r1 := { r with previous := some rec }
  match r.previous with
  | none => (true, r1)
  | some prev =>
      let prevPkt :=
        if rec.packet.pts ≠ AV_NOPTS_VALUE ∧ prev.packet.pts ≠ AV_NOPTS_VALUE then
          { prev.packet with duration := rec.packet.pts - prev.packet.pts }
        else prev.packet
      let w := recorder_write r1 prevPkt
      if w.fst then (true, w.snd)
      else (false, { w.snd with failed := true, queue := [] })

/-- Exit path of run_recorder when stopped is set and the queue is empty
(recorder.c lines 138-154): if a carry packet remains, give it the arbitrary
duration 100000 and write it best-effort (a failure is only logged). -/
def recorder_drain (r : Recorder) : Recorder :=
  match r.previous with
  | none => r
  | some last => (recorder_write r { last.packet with duration := 100000 }).snd

/-- Finalization of run_recorder after the loop (recorder.c lines 191-202):
when not failed, write the trailer if the header was written (a trailer
failure sets failed), otherwise mark the empty recording as failed. -/
def recorder_finalize (r : Recorder) : Recorder :=
  if r.failed = false then
    if r.header_written then
      let wt := av_write_trailer r.mux
      if wt.fst then { r with mux := wt.snd }
      else { r with mux := wt.snd, failed := true }
    else { r with failed := true }
  else r

/-- The recorder thread (run_recorder of recorder.c), applied to the
sequence of packets it dequeues in FIFO order; the end of the list is the
point where stopped is observed with an empty queue. -/
def run_recorder : Recorder → List RecordPacket → Recorder
  | r, [] => recorder_finalize (recorder_drain r)
  | r, rec :: rest =>
      let st := recorder_step r rec
      if st.fst then run_recorder st.snd rest else recorder_finalize st.snd

/-- A consumer callback invocation fired by the video buffer producer. -/
inductive VBEvent where
  | available
  | skipped
deriving Repr, DecidableEq

/-- The triple-buffered video buffer of video_buffer.c.  Frames are opaque
owned references, modelled by Option Nat (none is an empty frame, as left by
av_frame_unref).  pending_frame_consumed starts true (there is initially no
frame).  hasSkipCb records whether the optional on_frame_skipped entry of
the registered callback table is non-null; the required on_frame_available
entry is always present (asserted at registration).  events and unreffed are
ghost logs of the callbacks invoked and of the frame contents discarded by
av_frame_unref. -/
structure VideoBuffer where
  producer_frame : Option Nat := none
  pending_frame : Option Nat := none
  consumer_frame : Option Nat := none
  pending_frame_consumed : Bool := true
  hasSkipCb : Bool := true
  events : List VBEvent := []
  unreffed : List Nat := []
deriving Repr, DecidableEq

/-- av_frame_unref on the pending slot: the frame becomes empty; its
previous content, if any, is logged as discarded. -/
def unref_pending_frame (vb : VideoBuffer) : VideoBuffer :=
  { vb with pending_frame := none,
            unreffed := vb.unreffed ++ vb.pending_frame.toList }

/-- video_buffer_producer_offer_frame of video_buffer.c lines 76-96: under
the mutex, unref the pending frame, swap the producer and pending slots,
read and clear pending_frame_consumed; after unlocking, invoke
on_frame_skipped (when registered) if the previous pending frame had not
been consumed, otherwise invoke on_frame_available. -/
def video_buffer_producer_offer_frame (vb : VideoBuffer) : VideoBuffer :=
  let vb1 := unref_pending_frame vb
  let vb2 := { vb1 with producer_frame := vb1.pending_frame,
                        pending_frame := vb1.producer_frame }
  let skipped := !vb2.pending_frame_consumed
  let vb3 := { vb2 with pending_frame_consumed := false }
  if skipped then
    if vb3.hasSkipCb then { vb3 with events := vb3.events ++ [VBEvent.skipped] }
    else vb3
  else { vb3 with events := vb3.events ++ [VBEvent.available] }

/-- video_buffer_consumer_take_frame of video_buffer.c lines 98-111: set
pending_frame_consumed (asserted false on entry at every call site), swap
the consumer and pending slots, unref the pending slot, and return the
consumer frame. -/
def video_buffer_consumer_take_frame (vb : VideoBuffer) : Option Nat × VideoBuffer :=
  let vb1 := { vb with pending_frame_consumed := true }
  let vb2 := { vb1 with consumer_frame := vb1.pending_frame,
                        pending_frame := vb1.consumer_frame }
  let vb3 := unref_pending_frame vb2
  (vb3.consumer_frame, vb3)

/-- The producer placing its next decoded frame in the producer slot before
offering it (the decoder decodes into the slot owned by the producer side;
video_buffer_producer_offer_frame then publishes that slot). -/
def producer_set_frame (f : Nat) (vb : VideoBuffer) : VideoBuffer :=
  { vb with producer_frame := some f }

/-- One framed item of the wire protocol: the pts of the 12-byte meta-header
(an 8-byte big-endian unsigned integer, hence reduced mod 2^64 when stored)
followed by the payload bytes. -/
structure WireItem where
  pts : Nat
  payload : List Nat

/-- Stream engine state (struct stream of stream.c).  The decoder sink is
modelled, when attached, by the external outcome of decoder_push on each
packet; parse models the configured H.264 parser (av_parser_parse2 with
PARSER_FLAG_COMPLETE_FRAMES): for a payload it yields the emitted packets,
each as output bytes paired with the key-frame flag of the parser. -/
structure Stream where
  receiver_pts : Nat := NO_PTS
  decoder : Option (AVPacket → Bool) := none
  recorder : Option Recorder := none
  parse : List Nat → List (List Nat × Bool) := fun _ => []

/-- Outcome of the decoder_push call of process_packet: true when no decoder
is attached. -/
def decoder_push_outcome (s : Stream) (p : AVPacket) : Bool :=
  match s.decoder with
  | some push => push p
  | none => true

/-- process_packet of stream.c lines 77-96: push to the decoder when
attached; when a recorder is attached, store receiver_state.pts into the pts
and dts fields of the packet (a uint64_t stored into int64_t fields) and
call recorder_write synchronously, failing the stream on a write failure. -/
def process_packet (s : Stream) (packet : AVPacket) : Bool × Stream :=
  if decoder_push_outcome s packet = false then (false, s)
  else
    match s.recorder with
    | none => (true, s)
    | some r =>
        let pts := int64OfUInt64 s.receiver_pts
        let w := recorder_write r { packet with pts := pts, dts := pts }
        (w.fst, { s with recorder := some w.snd })

/-- The inner loop of stream_parse over the packets emitted by the parser:
each is built by av_init_packet (pts and dts absent, duration 0), given the
parser output bytes and key-frame flag, and handed to process_packet;
a failure stops the stream. -/
def process_packets : Stream → List (List Nat × Bool) → Bool × Stream
  | s, [] => (true, s)
  | s, (bytes, key) :: rest =>
      let p : AVPacket := { data := bytes, keyframe := key }
      let res := process_packet s p
      if res.fst then process_packets res.snd rest else (false, res.snd)

/-- stream_parse of stream.c lines 98-138: SDL_assert that the receiver pts
is not the NO_PTS sentinel, then (under the release semantics of the assert)
parse and dispatch the payload only when the pts is not the sentinel; a
sentinel payload is skipped entirely. -/
def stream_parse (s : Stream) (payload : List Nat) : Bool × Stream :=
  if s.receiver_pts ≠ NO_PTS then process_packets s (s.parse payload)
  else (true, s)

/-- stream_recv_packet of stream.c lines 25-68: read the 12-byte meta-header
and store its big-endian 64-bit pts (preserving the sentinel) into
receiver_state.pts; the payload is returned to the caller. -/
def stream_recv_packet (s : Stream) (item : WireItem) : Stream :=
  { s with receiver_pts := item.pts % UINT64_MOD }

/-- The receive-parse loop of run_stream (stream.c lines 171-187), applied
to the sequence of framed items the socket delivers before end-of-stream:
receive one item, parse and dispatch it, stop on the first failure. -/
def run_stream : Stream → List WireItem → Stream
  | s, [] => s
  | s, item :: rest =>
      let s1 := stream_recv_packet s item
      let res := stream_parse s1 item.payload
      if res.fst then run_stream res.snd rest else res.snd

/-- Packets handed to the write policy of the attached recorder, in order. -/
def stream_recorder_delivered (s : Stream) : List AVPacket :=
  match s.recorder with
  | some r => r.delivered
  | none => []

/-- Queue of the attached recorder. -/
def stream_recorder_queue (s : Stream) : List RecordPacket :=
  match s.recorder with
  | some r => r.queue
  | none => []

/-- Parser behaviour used by the concrete runs below: the sender delivers
complete frames, and the parser emits exactly one packet per payload. -/
def onePacketPerPayload : List Nat → List (List Nat × Bool) :=
  fun payload => [(payload, false)]

/-- Concrete stream for claim C1: recorder attached, no decoder, initial
receiver pts at the sentinel (stream_init). -/
def c1Stream : Stream :=
  { receiver_pts := NO_PTS, decoder := none, recorder := some {},
    parse := onePacketPerPayload }

/-- Concrete wire input for claim C1: first the config item (sentinel pts),
then one timestamped item. -/
def c1Items : List WireItem :=
  [⟨NO_PTS, [1, 2, 3, 4, 5, 6, 7]⟩, ⟨1000000, [8, 9, 10, 11, 12]⟩]

/-- Fresh recorder for claim C2. -/
def c2Recorder : Recorder := {}

/-- Concrete stream for claim C2: recorder attached, receiver pts 1000000. -/
def c2s : Stream :=
  { receiver_pts := 1000000, decoder := none, recorder := some c2Recorder,
    parse := onePacketPerPayload }

/-- Concrete parser-emitted packet for claim C2. -/
def c2p : AVPacket := { data := [0, 1] }

/-- Packet c2p after process_packet stamps the receiver pts into it. -/
def c2pStamped : AVPacket :=
  { c2p with pts := int64OfUInt64 c2s.receiver_pts,
             dts := int64OfUInt64 c2s.receiver_pts }

/-- Recorder for the C3 counterexample: header not written yet and the next
container write fails. -/
def c3fr : Recorder := { mux := { outcomes := [false] } }

/-- Config packet (absent pts) for the C3 counterexample. -/
def c3fp : AVPacket := { data := [7], pts := AV_NOPTS_VALUE }

/-- Fresh recorder for the C3 witness (every write succeeds). -/
def c3sr : Recorder := {}

/-- Config packet for the C3 witness. -/
def c3sp : AVPacket := { data := [5, 6] }

/-- Carry packet for claim C4 (pts 1000000). -/
def c4prev : RecordPacket := ⟨{ data := [1], pts := 1000000, dts := 1000000 }⟩

/-- Next dequeued packet for claim C4 (pts 1040000). -/
def c4rec : RecordPacket := ⟨{ data := [2], pts := 1040000, dts := 1040000 }⟩

/-- Recorder state for claim C4: header written, carry slot holding c4prev. -/
def c4r : Recorder := { previous := some c4prev, header_written := true }

/-- Carry packet for claim C5. -/
def c5last : RecordPacket := ⟨{ data := [3], pts := 2000000, dts := 2000000 }⟩

/-- Recorder state for claim C5: header written, carry slot full, and the
next container write fails (to exercise the best-effort last write). -/
def c5r : Recorder :=
  { previous := some c5last, header_written := true, mux := { outcomes := [false] } }

/-- Recorder state for the C6 witness: not failed, header never written. -/
def c6r : Recorder := {}

/-- Fresh recorder for claim C7. -/
def c7r : Recorder := {}

/-- Concrete packet for claim C7. -/
def c7p : AVPacket := { data := [9], pts := 5, dts := 5 }

/-- Video buffer for the C8 counterexample: callbacks registered with the
optional on_frame_skipped entry absent, and the pending frame not yet
consumed. -/
def c8vb : VideoBuffer :=
  { producer_frame := some 1, pending_frame := some 2, consumer_frame := none,
    pending_frame_consumed := false, hasSkipCb := false }

/-- Fresh recorder for claim C10. -/
def c10r : Recorder := {}

/-- Concrete packet for claim C10. -/
def c10p : AVPacket := { data := [1, 2] }

/-- Helper: recorder_write_header leaves every recorder field except mux
unchanged, in particular the ghost delivery log. -/
theorem recorder_write_header_delivered (r : Recorder) (p : AVPacket) :
    (recorder_write_header r p).snd.delivered = r.delivered := rfl

/-- Helper: recorder_write_header leaves the failed flag unchanged. -/
theorem recorder_write_header_failed (r : Recorder) (p : AVPacket) :
    (recorder_write_header r p).snd.failed = r.failed := rfl

/-- Helper: recorder_write_header leaves the queue unchanged. -/
theorem recorder_write_header_queue (r : Recorder) (p : AVPacket) :
    (recorder_write_header r p).snd.queue = r.queue := rfl

/-- Helper: recorder_write_header leaves the carry slot unchanged. -/
theorem recorder_write_header_previous (r : Recorder) (p : AVPacket) :
    (recorder_write_header r p).snd.previous = r.previous := rfl

/-- Helper: recorder_write appends exactly its argument to the ghost log of
packets handed to the write policy. -/
theorem recorder_write_delivered (r : Recorder) (p : AVPacket) :
    (recorder_write r p).snd.delivered = r.delivered ++ [p] := by
  by_cases hh : r.header_written = false
  · by_cases hp : p.pts ≠ AV_NOPTS_VALUE
    · simp [recorder_write, hh, hp]
    · simp [recorder_write, hh, hp, recorder_write_header_delivered]
      try (split <;> simp [recorder_write_header_delivered])
  · by_cases hp : p.pts = AV_NOPTS_VALUE
    · simp [recorder_write, hh, hp]
    · simp [recorder_write, hh, hp]

/-- Helper: recorder_write never touches the failed flag. -/
theorem recorder_write_failed (r : Recorder) (p : AVPacket) :
    (recorder_write r p).snd.failed = r.failed := by
  by_cases hh : r.header_written = false
  · by_cases hp : p.pts ≠ AV_NOPTS_VALUE
    · simp [recorder_write, hh, hp]
    · simp [recorder_write, hh, hp, recorder_write_header_failed]
      try (split <;> simp [recorder_write_header_failed])
  · by_cases hp : p.pts = AV_NOPTS_VALUE
    · simp [recorder_write, hh, hp]
    · simp [recorder_write, hh, hp]

/-- Helper: recorder_write never touches the queue. -/
theorem recorder_write_queue (r : Recorder) (p : AVPacket) :
    (recorder_write r p).snd.queue = r.queue := by
  by_cases hh : r.header_written = false
  · by_cases hp : p.pts ≠ AV_NOPTS_VALUE
    · simp [recorder_write, hh, hp]
    · simp [recorder_write, hh, hp, recorder_write_header_queue]
      try (split <;> simp [recorder_write_header_queue])
  · by_cases hp : p.pts = AV_NOPTS_VALUE
    · simp [recorder_write, hh, hp]
    · simp [recorder_write, hh, hp]

/-- Helper: recorder_write never touches the carry slot. -/
theorem recorder_write_previous (r : Recorder) (p : AVPacket) :
    (recorder_write r p).snd.previous = r.previous := by
  by_cases hh : r.header_written = false
  · by_cases hp : p.pts ≠ AV_NOPTS_VALUE
    · simp [recorder_write, hh, hp]
    · simp [recorder_write, hh, hp, recorder_write_header_previous]
      try (split <;> simp [recorder_write_header_previous])
  · by_cases hp : p.pts = AV_NOPTS_VALUE
    · simp [recorder_write, hh, hp]
    · simp [recorder_write, hh, hp]

/-- Helper: the frame published by an offer is the frame that was in the
producer slot. -/
theorem offer_pending (vb : VideoBuffer) :
    (video_buffer_producer_offer_frame vb).pending_frame = vb.producer_frame := by
  simp [video_buffer_producer_offer_frame, unref_pending_frame, apply_ite, ite_self]

/-- Helper: an offer discards exactly the previous pending frame. -/
theorem offer_unreffed (vb : VideoBuffer) :
    (video_buffer_producer_offer_frame vb).unreffed =
      vb.unreffed ++ vb.pending_frame.toList := by
  simp [video_buffer_producer_offer_frame, unref_pending_frame, apply_ite, ite_self]

/-- Helper: take_frame returns the frame that was pending on entry. -/
theorem take_fst (vb : VideoBuffer) :
    (video_buffer_consumer_take_frame vb).fst = vb.pending_frame := rfl

/-- Claim C1 (evaluation at the failing input): the wire delivers the config
item (sentinel pts, bytes 1..7) and then one timestamped item (pts 1000000,
bytes 8..12).  stream_parse skips the sentinel payload (its SDL_assert even
requires the sentinel never to occur), so the only packet ever handed to the
recorder write policy is the timestamped one: the first packet the recorder
sees carries a timestamp, and no config packet ever reaches it, contradicting
the claim that a config packet is always delivered first. -/
theorem C1_first_recorder_packet_timestamped :
    stream_recorder_delivered (run_stream c1Stream c1Items) =
      [{ data := [8, 9, 10, 11, 12], pts := 1000000, dts := 1000000,
         duration := 0, keyframe := false }] ∧
    (1000000 : Int) ≠ int64OfUInt64 NO_PTS ∧
    (1000000 : Int) ≠ AV_NOPTS_VALUE := by
  decide

/-- Claim C2 counterexample: at a fresh recorder with receiver pts 1000000,
process_packet returns false with the recorder queue left empty, while the
claimed asynchronous path (recorder_push) on the same stamped packet returns
true and enqueues a duplicate: the stream engine does not deliver packets
through the queue. -/
theorem C2_counterexample :
    (process_packet c2s c2p).fst = false ∧
    stream_recorder_queue (process_packet c2s c2p).snd = [] ∧
    (recorder_push c2Recorder true c2pStamped).fst = true ∧
    (recorder_push c2Recorder true c2pStamped).snd.queue = [⟨c2pStamped⟩] := by
  decide

/-- Claim C2 (amended): for every packet emitted by the parser while a
recorder is attached (and the decoder push, if any, succeeded),
process_packet stores receiver_state.pts into the pts and dts fields of the
packet and delivers it by a synchronous call to recorder_write; the recorder
queue is not involved and is left unchanged. -/
theorem C2_amended (s : Stream) (r : Recorder) (p : AVPacket)
    (hr : s.recorder = some r) (hd : decoder_push_outcome s p = true) :
    (process_packet s p).fst =
      (recorder_write r { p with pts := int64OfUInt64 s.receiver_pts,
                                 dts := int64OfUInt64 s.receiver_pts }).fst ∧
    (process_packet s p).snd.recorder =
      some (recorder_write r { p with pts := int64OfUInt64 s.receiver_pts,
                                      dts := int64OfUInt64 s.receiver_pts }).snd ∧
    (process_packet s p).snd.receiver_pts = s.receiver_pts ∧
    stream_recorder_queue (process_packet s p).snd = r.queue := by
  refine ⟨?_, ?_, ?_, ?_⟩ <;>
    simp [process_packet, hd, hr, stream_recorder_queue, recorder_write_queue]

/-- Claim C2 witness: the amended theorem applied at a concrete stream. -/
theorem C2_amended_witness :
    (process_packet c2s c2p).fst = (recorder_write c2Recorder c2pStamped).fst ∧
    stream_recorder_queue (process_packet c2s c2p).snd = c2Recorder.queue := by
  have h := C2_amended c2s c2Recorder c2p rfl rfl
  exact ⟨h.1, h.2.2.2⟩

/-- Claim C3 counterexample: a packet with absent pts presented to a
recorder whose header is not yet written, when the container header write
itself fails, makes recorder_write fail even though the pts is absent, so
recorder_write does not fail only when the pts is present. -/
theorem C3_counterexample :
    c3fp.pts = AV_NOPTS_VALUE ∧
    c3fr.header_written = false ∧
    (recorder_write c3fr c3fp).fst = false ∧
    (recorder_write c3fr c3fp).snd.header_written = false := by
  decide

/-- Claim C3 (amended): while header_written is false, recorder_write fails
if and only if the pts is present or the container header write fails; when
the pts is absent and the header write succeeds, it installs exactly the
packet bytes as the extradata of stream 0, writes the container header (and
nothing else, in particular not the packet as a frame), and sets
header_written. -/
theorem C3_amended (r : Recorder) (p : AVPacket) (h : r.header_written = false) :
    ((recorder_write r p).fst = false ↔
      (p.pts ≠ AV_NOPTS_VALUE ∨ r.mux.outcomes.head? = some false)) ∧
    (p.pts = AV_NOPTS_VALUE → r.mux.outcomes.head? ≠ some false →
      (recorder_write r p).fst = true ∧
      (recorder_write r p).snd.mux.extradata = some p.data ∧
      (recorder_write r p).snd.mux.ops = r.mux.ops ++ [MuxOp.header p.data] ∧
      (recorder_write r p).snd.header_written = true) := by
  constructor
  · by_cases hp : p.pts = AV_NOPTS_VALUE
    · rcases ho : r.mux.outcomes with _ | ⟨b, rest⟩
      · simp [recorder_write, recorder_write_header, avformat_write_header, h, hp, ho]
      · cases b <;>
          simp [recorder_write, recorder_write_header, avformat_write_header, h, hp, ho]
    · simp [recorder_write, h, hp]
  · intro hp hno
    rcases ho : r.mux.outcomes with _ | ⟨b, rest⟩
    · simp [recorder_write, recorder_write_header, avformat_write_header, h, hp, ho]
    · cases b
      · simp [ho] at hno
      · simp [recorder_write, recorder_write_header, avformat_write_header, h, hp, ho]

/-- Claim C3 witness: the amended theorem applied to a fresh recorder and a
config packet, with a succeeding header write. -/
theorem C3_amended_witness :
    (recorder_write c3sr c3sp).fst = true ∧
    (recorder_write c3sr c3sp).snd.mux.extradata = some c3sp.data ∧
    (recorder_write c3sr c3sp).snd.mux.ops = c3sr.mux.ops ++ [MuxOp.header c3sp.data] ∧
    (recorder_write c3sr c3sp).snd.header_written = true :=
  (C3_amended c3sr c3sp rfl).2 rfl (by decide)

/-- Claim C4: one loop iteration of the recorder thread with a non-empty
carry slot hands to the write policy the carried packet with duration set to
rec.pts minus previous.pts when both timestamps are present, and unchanged
(duration left as it was) when either is absent; the dequeued packet becomes
the new carry. -/
theorem C4_duration_inference (r : Recorder) (prev rec : RecordPacket)
    (h : r.previous = some prev) :
    (rec.packet.pts ≠ AV_NOPTS_VALUE ∧ prev.packet.pts ≠ AV_NOPTS_VALUE →
      (recorder_step r rec).snd.delivered =
        r.delivered ++
          [{ prev.packet with duration := rec.packet.pts - prev.packet.pts }]) ∧
    (¬(rec.packet.pts ≠ AV_NOPTS_VALUE ∧ prev.packet.pts ≠ AV_NOPTS_VALUE) →
      (recorder_step r rec).snd.delivered = r.delivered ++ [prev.packet]) ∧
    (recorder_step r rec).snd.previous = some rec := by
  refine ⟨?_, ?_, ?_⟩
  · intro hc
    simp only [recorder_step, h]
    rw [if_pos hc]
    split <;> simp [recorder_write_delivered]
  · intro hc
    simp only [recorder_step, h]
    rw [if_neg hc]
    split <;> simp [recorder_write_delivered]
  · simp only [recorder_step, h]
    split <;> split <;> simp [recorder_write_previous]

/-- Claim C4 witness: with carried pts 1000000 and next pts 1040000, the
packet written carries duration 1040000 - 1000000. -/
theorem C4_witness :
    (recorder_step c4r c4rec).snd.delivered =
      c4r.delivered ++
        [{ c4prev.packet with duration := c4rec.packet.pts - c4prev.packet.pts }] :=
  (C4_duration_inference c4r c4prev c4rec rfl).1 (by decide)

/-- Claim C5: on the stopped-and-empty exit of the recorder loop with a
non-null carry packet, that packet is handed to the write policy with
duration 100000 microseconds, and the failed flag is left exactly as it was
regardless of the outcome of that write. -/
theorem C5_drain_last_packet (r : Recorder) (last : RecordPacket)
    (h : r.previous = some last) :
    (recorder_drain r).delivered =
      r.delivered ++ [{ last.packet with duration := 100000 }] ∧
    (recorder_drain r).failed = r.failed := by
  simp only [recorder_drain, h]
  exact ⟨recorder_write_delivered r _, recorder_write_failed r _⟩

/-- Claim C5 witness: applied to a recorder whose next container write
fails; the last packet still goes out with duration 100000 and failed stays
false. -/
theorem C5_drain_witness :
    (recorder_drain c5r).delivered =
      c5r.delivered ++ [{ c5last.packet with duration := 100000 }] ∧
    (recorder_drain c5r).failed = false :=
  C5_drain_last_packet c5r c5last rfl

/-- Claim C6: at finalization, if failed is false and the header was
written, the trailer is written and the recording fails exactly when that
trailer write fails; if failed is false and the header was never written,
the recording is marked failed (empty file). -/
theorem C6_finalization (r : Recorder) :
    (r.failed = false → r.header_written = true →
      ((recorder_finalize r).failed = true ↔ r.mux.outcomes.head? = some false) ∧
      (r.mux.outcomes.head? ≠ some false →
        (recorder_finalize r).mux.ops = r.mux.ops ++ [MuxOp.trailer])) ∧
    (r.failed = false → r.header_written = false →
      (recorder_finalize r).failed = true) := by
  constructor
  · intro hf hh
    rcases ho : r.mux.outcomes with _ | ⟨b, rest⟩
    · simp [recorder_finalize, av_write_trailer, hf, hh, ho]
    · cases b <;> simp [recorder_finalize, av_write_trailer, hf, hh, ho]
  · intro hf hh
    simp [recorder_finalize, hf, hh]

/-- Claim C6 witness: a recorder that never wrote its header is marked
failed at finalization. -/
theorem C6_finalization_witness : (recorder_finalize c6r).failed = true :=
  (C6_finalization c6r).2 rfl rfl

/-- Claim C7: before the stopped signal, recorder_push returns false exactly
when the recorder has already failed or the record allocation fails;
otherwise it appends a full duplicate of the packet to the queue, signals
the condition variable once, changes nothing else, and returns true. -/
theorem C7_push_contract (r : Recorder) (allocOk : Bool) (p : AVPacket)
    (h : r.stopped = false) :
    ((recorder_push r allocOk p).fst = false ↔ (r.failed = true ∨ allocOk = false)) ∧
    ((recorder_push r allocOk p).fst = true →
      (recorder_push r allocOk p).snd =
        { r with queue := r.queue ++ [⟨p⟩], signals := r.signals + 1 }) ∧
    (recorder_push r allocOk p).snd.stopped = false := by
  refine ⟨?_, ?_, ?_⟩ <;>
    cases hf : r.failed <;> cases allocOk <;>
      simp [recorder_push, record_packet_new, hf, h]

/-- Claim C7 witness: pushing one packet onto a fresh recorder. -/
theorem C7_push_witness :
    (recorder_push c7r true c7p).snd =
      { c7r with queue := c7r.queue ++ [⟨c7p⟩], signals := c7r.signals + 1 } :=
  (C7_push_contract c7r true c7p rfl).2.1 (by decide)

/-- Claim C8 counterexample: with the optional on_frame_skipped entry
unregistered and the pending frame not yet consumed, an offer invokes no
callback at all (neither on_frame_available nor on_frame_skipped), so it is
not the case that exactly one of the two is always invoked. -/
theorem C8_counterexample :
    c8vb.pending_frame_consumed = false ∧
    (video_buffer_producer_offer_frame c8vb).events = c8vb.events := by
  decide

/-- Claim C8 (amended): each offer invokes on_frame_available exactly when
pending_frame_consumed was true on entry; otherwise it invokes
on_frame_skipped exactly when that optional callback is registered, and no
callback at all when it is not; never both. -/
theorem C8_callback_cases (vb : VideoBuffer) :
    (video_buffer_producer_offer_frame vb).events =
      vb.events ++
        (if vb.pending_frame_consumed then [VBEvent.available]
         else if vb.hasSkipCb then [VBEvent.skipped] else []) := by
  cases hc : vb.pending_frame_consumed <;> cases hs : vb.hasSkipCb <;>
    simp [video_buffer_producer_offer_frame, unref_pending_frame, hc, hs]

/-- Claim C9: offering frame A and then frame B with no intervening take
makes the next take return B, while A is discarded (unreferenced) by the
second offer rather than delivered. -/
theorem C9_latest_wins (vb : VideoBuffer) (A B : Nat) :
    (video_buffer_consumer_take_frame
      (video_buffer_producer_offer_frame
        (producer_set_frame B
          (video_buffer_producer_offer_frame (producer_set_frame A vb))))).fst = some B ∧
    (video_buffer_producer_offer_frame
        (producer_set_frame B
          (video_buffer_producer_offer_frame (producer_set_frame A vb)))).unreffed =
      (video_buffer_producer_offer_frame (producer_set_frame A vb)).unreffed ++ [A] := by
  constructor
  · rw [take_fst, offer_pending]
    simp [producer_set_frame]
  · rw [offer_unreffed]
    simp [producer_set_frame, offer_pending]

/-- Claim C10 counterexample: the wire sentinel 2^64 - 1 stored through the
uint64-to-int64 conversion is -1, and -1 is not AV_NOPTS_VALUE (which is
-2^63), so the conversion does not land on the value the recorder write
policy tests for. -/
theorem C10_counterexample :
    int64OfUInt64 NO_PTS = -1 ∧
    AV_NOPTS_VALUE = -9223372036854775808 ∧
    int64OfUInt64 NO_PTS ≠ AV_NOPTS_VALUE := by
  decide

/-- Claim C10 (amended): the sentinel reinterprets to -1, which differs from
AV_NOPTS_VALUE; consequently the timestamp-absent test of the recorder does
not recognize the wire sentinel: a packet stamped with the converted
sentinel and presented before the header is rejected as a timestamped
packet instead of being consumed as the config packet. -/
theorem C10_sentinel_mismatch (r : Recorder) (p : AVPacket)
    (h : r.header_written = false) :
    int64OfUInt64 NO_PTS = -1 ∧
    int64OfUInt64 NO_PTS ≠ AV_NOPTS_VALUE ∧
    (recorder_write r { p with pts := int64OfUInt64 NO_PTS,
                               dts := int64OfUInt64 NO_PTS }).fst = false := by
  have hne : int64OfUInt64 NO_PTS ≠ AV_NOPTS_VALUE := by decide
  refine ⟨by decide, hne, ?_⟩
  simp [recorder_write, h, hne]

/-- Claim C10 witness: the amended theorem applied to a fresh recorder. -/
theorem C10_sentinel_witness :
    (recorder_write c10r { c10p with pts := int64OfUInt64 NO_PTS,
                                     dts := int64OfUInt64 NO_PTS }).fst = false :=
  (C10_sentinel_mismatch c10r c10p rfl).2.2

end Scrcpy
